import Mathlib

/-!
Shallow embedding of the ryvencore session layer.

Sources embedded:
- `src/src/Session.py` : class `Session` (script registry, node-class registry,
  threading bridge wiring, project load/serialize).
- `src/ryvencore/addons/AddOn.py` : base class `AddOn` (trivial state contract).

Python objects are modelled as Lean structures, in-place mutation as explicit
state passing, raised exceptions as `Except`, and emitted Qt signals as values
of an `Event` type returned alongside the new state.  Python `dict`s appearing
in the project format are modelled by a structure with one `Option` field per
key the code reads or writes, `none` meaning the key is absent.
-/

set_option autoImplicit false

/-- The opaque serialized configuration of a script (`script.serialize()` in the
source, external to this repository).  A config carries the script title and an
opaque payload standing for the rest of the script's content. -/
structure Config where
  title : String
  payload : Nat
deriving DecidableEq, Repr

/-- A script object, external to this core: the source requires only a mutable
`title` and `serialize() -> opaque config` (spec boundary).  `payload` stands
for the opaque remainder of the script's state. -/
structure Script where
  title : String
  payload : Nat
deriving DecidableEq, Repr

/-- `script.serialize()`: the opaque config of a script fully reflects its
state (external collaborator contract). -/
def Script.serialize (s : Script) : Config :=
  { title := s.title, payload := s.payload }

/-- `Script(session=self, content_data=config)`: reconstructing a script from
its persisted config (external collaborator contract, inverse of
`Script.serialize`). -/
def Script.fromConfig (c : Config) : Script :=
  { title := c.title, payload := c.payload }

/-- A registered node class.  `Session.register_node` stores the class object
itself; we model a node class by its identifier. -/
abbrev NodeClass := String

/-- The Qt signals that `Session` emits
(`new_script_created`, `script_renamed`, `script_deleted`). -/
inductive Event where
  | newScriptCreated (s : Script)
  | scriptRenamed (s : Script)
  | scriptDeleted (s : Script)
deriving DecidableEq, Repr

/-- Python exceptions raised by the embedded code. -/
inductive PyErr where
  /-- `AttributeError`: `gui_parent.thread()` with `gui_parent = None`
  in `Session.__init__`. -/
  | attributeErrorNoneType
  /-- `ValueError`: `list.remove(x)` with `x` absent, in
  `Session.delete_script`. -/
  | scriptNotFound
deriving DecidableEq, Repr

/-- Return values of `Session.load`: Python `False` on the malformed-shape
check, and the implicit `None` when the function falls through. -/
inductive PyRet where
  | pyFalse
  | pyNone
deriving DecidableEq, Repr

/-- A `QWidget` used as `gui_parent`; the only operation the source invokes on
it is `.thread()`, modelled by an identifier of the thread that owns it. -/
structure GuiParent where
  threadId : Nat
deriving DecidableEq, Repr

/-- `SessionThreadingBridge` instance; `moveToThread` is modelled by recording
the thread the bridge now lives on. -/
structure SessionThreadingBridge where
  onThread : Nat
deriving DecidableEq, Repr

/-- The `Session` object: the fields of `Session.__init__` the claims concern
(`self.scripts`, `self.nodes`, `self.threaded`, `self.threading_bridge`,
`self.gui_parent`).  Presentation-only state (`Design`, fonts, stylesheet) is
out of the embedded core. -/
structure Session where
  scripts : List Script
  nodes : List NodeClass
  threaded : Bool
  threadingBridge : Option SessionThreadingBridge
  guiParent : Option GuiParent
deriving DecidableEq, Repr

/-- `Session.__init__(threaded, gui_parent, ...)`: starts with empty script and
node lists and no bridge; when `threaded` it builds a bridge and calls
`self.threading_bridge.moveToThread(gui_parent.thread())`, which dereferences
`gui_parent` and raises `AttributeError` when it is `None`. -/
def sessionInit (threaded : Bool) (guiParent : Option GuiParent) :
    Except PyErr Session :=
  if threaded then
    match guiParent with
    | none => .error .attributeErrorNoneType
    | some gp =>
        .ok { scripts := [], nodes := [], threaded := true,
              threadingBridge := some { onThread := gp.threadId },
              guiParent := some gp }
  else
    .ok { scripts := [], nodes := [], threaded := false,
          threadingBridge := none, guiParent := guiParent }

/-- `Session.register_node(node_class)`: `self.nodes.append(node_class)`. -/
def Session.register_node (sess : Session) (nodeClass : NodeClass) : Session :=
  { sess with nodes := sess.nodes ++ [nodeClass] }

/-- `Session.register_nodes(node_classes)`: `register_node` on each in order. -/
def Session.register_nodes (sess : Session) (nodeClasses : List NodeClass) :
    Session :=
  nodeClasses.foldl Session.register_node sess

/-- `Session.create_script(title, ...)`: constructs a fresh `Script` with the
given title (its other constructor arguments produce the default payload),
appends it to `self.scripts`, emits `new_script_created`, returns the script.
No title validation is performed. -/
def Session.create_script (sess : Session) (title : String) :
    Session × Script × Event :=
  let script : Script := { title := title, payload := 0 }
  ({ sess with scripts := sess.scripts ++ [script] }, script,
   .newScriptCreated script)

/-- `Session._load_script(config)`: reconstructs a script from its config,
appends it to `self.scripts` and emits `new_script_created`. -/
def Session.load_script (sess : Session) (config : Config) : Session × Event :=
  let script := Script.fromConfig config
  ({ sess with scripts := sess.scripts ++ [script] },
   .newScriptCreated script)

/-- `Session.rename_script(script, title)`: `script.title = title` then emit
`script_renamed`.  Python mutates the script object in place; every occurrence
of that object in `self.scripts` shows the new title, which we model by
rewriting the entries equal to the given script.  No validation is performed. -/
def Session.rename_script (sess : Session) (script : Script) (title : String) :
    Session × Script × Event :=
  let renamed : Script := { script with title := title }
  ({ sess with
      scripts := sess.scripts.map fun s => if s = script then renamed else s },
   renamed, .scriptRenamed renamed)

/-- `Session.check_new_script_title_validity(title)`: `False` for the empty
title or a title already carried by some script, else `True`.  Note: nothing in
`Session` calls it. -/
def Session.check_new_script_title_validity (sess : Session) (title : String) :
    Bool :=
  if title.length == 0 then false
  else sess.scripts.all fun s => !(s.title == title)

/-- Python `list.remove(x)`: drop the first element equal to `x`; `none` models
the `ValueError` raised when `x` is absent. -/
def listRemove (l : List Script) (x : Script) : Option (List Script) :=
  match l with
  | [] => none
  | y :: ys => if y = x then some ys else (listRemove ys x).map (y :: ·)

/-- `Session.delete_script(script)`: `self.scripts.remove(script)` then emit
`script_deleted`; `list.remove` raises `ValueError` when the script is absent,
in which case nothing is emitted. -/
def Session.delete_script (sess : Session) (script : Script) :
    Except PyErr (Session × Event) :=
  match listRemove sess.scripts script with
  | none => .error .scriptNotFound
  | some rest =>
      .ok ({ sess with scripts := rest }, .scriptDeleted script)

/-- The state an addon's `get_state` returns: a JSON-compatible mapping,
modelled as entries with opaque payloads. -/
abbrev AddonState := List (String × Nat)

/-- The persisted project form: a Python dict of which the embedded code reads
or writes the keys `'scripts'` and `'addons'`; `none` models an absent key. -/
structure Project where
  scripts : Option (List Config)
  addons : Option (List (String × AddonState))
deriving DecidableEq, Repr

/-- `Session.load`'s loop `for s in project['scripts']: self._load_script(s)`,
threading the session and collecting emitted events in order. -/
def Session.loadScripts (sess : Session) (configs : List Config) :
    Session × List Event :=
  match configs with
  | [] => (sess, [])
  | c :: cs =>
      let (s1, e) := sess.load_script c
      let (s2, evs) := s1.loadScripts cs
      (s2, e :: evs)

/-- `Session.load(project)`: returns `False` when `'scripts'` is not a key of
`project`, otherwise loads each script config in persisted order and falls
through (returning `None`). -/
def Session.load (sess : Session) (project : Project) :
    PyRet × Session × List Event :=
  match project.scripts with
  | none => (.pyFalse, sess, [])
  | some configs =>
      let (s2, evs) := sess.loadScripts configs
      (.pyNone, s2, evs)

/-- `Session.serialize()`: builds `data = {}`, sets `data['scripts']` to the
list of each script's config in collection order, and returns it.  No other key
is written. -/
def Session.serialize (sess : Session) : Project :=
  { scripts := some (sess.scripts.map Script.serialize), addons := none }

/-- Base class `AddOn` from `src/ryvencore/addons/AddOn.py`: class attributes
`name`, `version`, `description`, and no further instance state. -/
structure AddOn where
  name : String := ""
  version : String := ""
  description : String := ""
deriving DecidableEq, Repr

/-- `AddOn.get_state`: `return {}`. -/
def AddOn.get_state (_a : AddOn) : AddonState := []

/-- `AddOn.set_state(state)`: `pass` — accepts any mapping, changes nothing,
never raises (modelled by a total function returning the addon unchanged). -/
def AddOn.set_state (a : AddOn) (_state : AddonState) : AddOn := a

/-- Modelled from the spec: a user/default addon subclass (the
`addons.default` package is not under `src/`) whose `get_state`/`set_state`
round-trip its internal state, per the spec's addon boundary
(`get_state() -> JSON-compatible mapping`, `set_state(mapping)`). -/
structure StatefulAddon where
  name : String
  state : AddonState
deriving DecidableEq, Repr

/-- The spec's `get_state` for a stateful addon: return its state mapping. -/
def StatefulAddon.get_state (a : StatefulAddon) : AddonState := a.state

/-- The spec's `set_state` for a stateful addon: adopt the given mapping. -/
def StatefulAddon.set_state (a : StatefulAddon) (s : AddonState) :
    StatefulAddon :=
  { a with state := s }

/-- A session together with the addons the embedding application registered
with it (the addon registry lives outside `src/src/Session.py`). -/
structure SessionAddons where
  base : Session
  addons : List StatefulAddon
deriving DecidableEq, Repr

/-- Saving a project: `Session.serialize` is the only serialization the source
performs; the registered addons are not consulted. -/
def SessionAddons.save (s : SessionAddons) : Project :=
  s.base.serialize

/-- Loading a project with `Session.load` from the source: only the script
collection is touched; the registered addons are untouched. -/
def SessionAddons.loadOnly (s : SessionAddons) (project : Project) :
    PyRet × SessionAddons :=
  let r := s.base.load project
  (r.1, { s with base := r.2.1 })

/-- Observable steps of the full load protocol: script reconstruction events
and the addon-restoration bracket. -/
inductive LoadEvent where
  | script (e : Event)
  | beginRestore
  | restoreAddon (name : String) (state : AddonState)
  | endRestore
deriving DecidableEq, Repr

/-- Modelled from the spec: the restore driver (`restore(name, state)` inside
the `begin_restore`/`end_restore` bracket) is not under `src/`; per the spec it
looks up the addon by name and invokes its state-setter, one persisted entry at
a time, emitting one restore step per entry. -/
def restoreEntries (addons : List StatefulAddon)
    (entries : List (String × AddonState)) :
    List StatefulAddon × List LoadEvent :=
  match entries with
  | [] => (addons, [])
  | (n, st) :: rest =>
      let addons1 := addons.map fun a =>
        if a.name = n then a.set_state st else a
      let (addons2, evs) := restoreEntries addons1 rest
      (addons2, .restoreAddon n st :: evs)

/-- Modelled from the spec: `Session.load`'s addon-restoration phase
(`AddonRegistry.begin_restore()`, `restore(name, state)` per persisted entry,
`end_restore()`) is not under `src/`; the full load protocol per the spec first
runs the source's script-loading phase and only then the addon phase. -/
def loadProtocol (s : SessionAddons) (project : Project) :
    PyRet × SessionAddons × List LoadEvent :=
  match project.scripts with
  | none => (.pyFalse, s, [])
  | some configs =>
      let (b2, scriptEvs) := s.base.loadScripts configs
      let (addons2, restoreEvs) :=
        restoreEntries s.addons (project.addons.getD [])
      (.pyNone, { base := b2, addons := addons2 },
       scriptEvs.map LoadEvent.script
         ++ [LoadEvent.beginRestore] ++ restoreEvs ++ [LoadEvent.endRestore])

/-- A session as `Session.__init__(threaded=False)` builds it. -/
def emptySession : Session :=
  { scripts := [], nodes := [], threaded := false,
    threadingBridge := none, guiParent := none }

/-- A session holding two scripts titled `A` and `B`. -/
def sessAB : Session :=
  { emptySession with scripts := [⟨"A", 0⟩, ⟨"B", 1⟩] }

/-- A session with one script and a `logger` addon whose state was mutated
away from its default. -/
def loggerSession : SessionAddons :=
  { base := { emptySession with scripts := [⟨"A", 0⟩] },
    addons := [⟨"logger", [("level", 1)]⟩] }

/-- A fresh session with the same `logger` addon pre-registered, still in its
default state. -/
def freshLoggerSession : SessionAddons :=
  { base := emptySession, addons := [⟨"logger", []⟩] }

/-- A persisted project with one script config and one addon-state entry. -/
def demoProject : Project :=
  { scripts := some [⟨"A", 0⟩],
    addons := some [("logger", [("level", 1)])] }

/-! ## Helper lemmas -/

/-- Reconstructing a script from a config and serializing it again yields the
config (external collaborator round trip). -/
theorem serialize_fromConfig (c : Config) :
    (Script.fromConfig c).serialize = c := rfl

/-- `loadScripts` appends the reconstructed scripts in persisted order and
emits one `new_script_created` per config, in order. -/
theorem loadScripts_eq (configs : List Config) (sess : Session) :
    sess.loadScripts configs =
      ({ sess with scripts := sess.scripts ++ configs.map Script.fromConfig },
       configs.map fun c => Event.newScriptCreated (Script.fromConfig c)) := by
  induction configs generalizing sess with
  | nil => simp [Session.loadScripts]
  | cons c cs ih => simp [Session.loadScripts, Session.load_script, ih]

/-- `list.remove` on an absent element raises (`none`). -/
theorem listRemove_of_not_mem (l : List Script) (x : Script) (h : x ∉ l) :
    listRemove l x = none := by
  induction l with
  | nil => rfl
  | cons y ys ih =>
      simp only [List.mem_cons, not_or] at h
      have hyx : ¬ y = x := fun he => h.1 he.symm
      simp [listRemove, hyx, ih h.2]

/-- `list.remove` on a present element drops exactly its first occurrence,
leaving the rest in order. -/
theorem listRemove_of_mem (l : List Script) (x : Script) (h : x ∈ l) :
    ∃ l1 l2, l = l1 ++ x :: l2 ∧ x ∉ l1 ∧ listRemove l x = some (l1 ++ l2) := by
  induction l with
  | nil => cases h
  | cons y ys ih =>
      by_cases hy : y = x
      · subst hy
        exact ⟨[], ys, rfl, by simp, by simp [listRemove]⟩
      · have hx : x ∈ ys := by
          rcases List.mem_cons.mp h with h1 | h1
          · exact absurd h1.symm hy
          · exact h1
        obtain ⟨l1, l2, heq, hnot, hrem⟩ := ih hx
        refine ⟨y :: l1, l2, by rw [heq]; rfl, ?_, ?_⟩
        · intro hmem
          rcases List.mem_cons.mp hmem with h1 | h1
          · exact hy h1.symm
          · exact hnot h1
        · simp [listRemove, hy, hrem]

/-- `register_nodes` appends all given node classes in order. -/
theorem register_nodes_nodes (l : List NodeClass) (sess : Session) :
    (sess.register_nodes l).nodes = sess.nodes ++ l := by
  induction l generalizing sess with
  | nil => simp [Session.register_nodes]
  | cons x xs ih =>
      have hstep : sess.register_nodes (x :: xs) =
          (sess.register_node x).register_nodes xs := rfl
      rw [hstep, ih]
      simp [Session.register_node]

/-- A string has length zero exactly when it is the empty string. -/
theorem string_length_zero_iff (t : String) : t.length = 0 ↔ t = "" := by
  cases t with
  | mk d =>
      constructor
      · intro h
        have hd : d = [] := List.length_eq_zero.mp h
        subst hd
        rfl
      · intro h
        rw [h]
        rfl

/-- The restore driver emits exactly one restore step per persisted addon
entry, in order. -/
theorem restoreEntries_events (entries : List (String × AddonState))
    (addons : List StatefulAddon) :
    (restoreEntries addons entries).2 =
      entries.map fun x => LoadEvent.restoreAddon x.1 x.2 := by
  induction entries generalizing addons with
  | nil => rfl
  | cons e rest ih => simp [restoreEntries, ih]

/-! ## Claim theorems -/

/-- Claim C1, counterexample: starting from an empty session, the operation
sequence `create_script "A"; create_script "A"` yields two scripts sharing the
title `A`, and the second (duplicate-introducing) operation changed the script
collection rather than leaving it unchanged — no `InvalidTitleError` exists in
this code path. -/
theorem create_duplicate_title_not_rejected :
    (((emptySession.create_script "A").1.create_script "A").1.scripts.map
        Script.title = ["A", "A"]) ∧
    ((emptySession.create_script "A").1.create_script "A").1.scripts ≠
      (emptySession.create_script "A").1.scripts := by
  exact ⟨rfl, by decide⟩

/-- Claim C1, amended: `check_new_script_title_validity` returns `true` exactly
when the title is non-empty and borne by no script, but `Session` never invokes
it: `create_script` appends unconditionally and `rename_script` retitles
unconditionally, so create/rename sequences can introduce empty or duplicate
titles without any error and with the collection mutated. -/
theorem title_uniqueness_unenforced (sess : Session) (t : String) :
    (sess.check_new_script_title_validity t = true ↔
      t ≠ "" ∧ ∀ s ∈ sess.scripts, s.title ≠ t) ∧
    ((sess.create_script t).1.scripts =
      sess.scripts ++ [{ title := t, payload := 0 }]) ∧
    (∀ scr : Script,
      (sess.rename_script scr t).1.scripts =
        sess.scripts.map fun s =>
          if s = scr then { scr with title := t } else s) := by
  refine ⟨?_, rfl, fun scr => rfl⟩
  unfold Session.check_new_script_title_validity
  by_cases h0 : t = ""
  · subst h0
    simp
  · have hlen : (t.length == 0) = false := by
      rw [beq_eq_false_iff_ne]
      exact fun hl => h0 ((string_length_zero_iff t).mp hl)
    simp [hlen, h0, List.all_eq_true]

/-- Claim C2: in the full load protocol the observable trace is exactly the
script-reconstruction events for all persisted configs, followed by the
restore bracket; the restore phase consists only of restore steps (never a
script event), and by the time it starts every persisted script is already
appended to the script collection. -/
theorem loadProtocol_scripts_before_restore (s : SessionAddons) (p : Project)
    (configs : List Config) (h : p.scripts = some configs) :
    (loadProtocol s p).2.2 =
      (configs.map fun c =>
          LoadEvent.script (.newScriptCreated (Script.fromConfig c)))
        ++ [LoadEvent.beginRestore]
        ++ ((p.addons.getD []).map fun x => LoadEvent.restoreAddon x.1 x.2)
        ++ [LoadEvent.endRestore] ∧
    (loadProtocol s p).2.1.base.scripts =
      s.base.scripts ++ configs.map Script.fromConfig ∧
    (∀ x : String × AddonState, ∀ ev : Event,
      LoadEvent.restoreAddon x.1 x.2 ≠ LoadEvent.script ev) := by
  refine ⟨?_, ?_, fun x ev => by simp⟩
  · simp [loadProtocol, h, loadScripts_eq, restoreEntries_events]
  · simp [loadProtocol, h, loadScripts_eq]

/-- Claim C2, witness at a one-script one-addon project. -/
theorem loadProtocol_scripts_before_restore_witness :
    (loadProtocol freshLoggerSession demoProject).2.1.base.scripts =
      freshLoggerSession.base.scripts
        ++ ([⟨"A", 0⟩] : List Config).map Script.fromConfig :=
  (loadProtocol_scripts_before_restore freshLoggerSession demoProject
    [⟨"A", 0⟩] rfl).2.1

/-- Claim C3: when the project mapping lacks the `scripts` key, `load` returns
`False`, emits nothing, and leaves the session — its script collection and the
registered addons — exactly as it was. -/
theorem load_missing_scripts_atomic (sess : Session) (sa : SessionAddons)
    (p : Project) (h : p.scripts = none) :
    sess.load p = (.pyFalse, sess, []) ∧ sa.loadOnly p = (.pyFalse, sa) := by
  constructor
  · simp [Session.load, h]
  · simp [SessionAddons.loadOnly, Session.load, h]

/-- Claim C3, witness at a project with no keys. -/
theorem load_missing_scripts_atomic_witness :
    emptySession.load { scripts := none, addons := none } =
        (.pyFalse, emptySession, []) ∧
      SessionAddons.loadOnly ⟨emptySession, []⟩
          { scripts := none, addons := none } =
        (.pyFalse, ⟨emptySession, []⟩) :=
  load_missing_scripts_atomic emptySession ⟨emptySession, []⟩
    { scripts := none, addons := none } rfl

/-- Claim C4, counterexample: a session with one script and a `logger` addon in
state `level ↦ 1` is saved and loaded into a fresh session with the same addon
pre-registered (default state); the script configs are reproduced but the
addon state is not — `serialize` writes no addon snapshot and `load` restores
none. -/
theorem roundtrip_loses_addon_state :
    ((freshLoggerSession.loadOnly loggerSession.save).2.base.scripts.map
        Script.serialize = loggerSession.base.scripts.map Script.serialize) ∧
    (freshLoggerSession.loadOnly loggerSession.save).2.addons.map
        StatefulAddon.get_state ≠
      loggerSession.addons.map StatefulAddon.get_state := by
  constructor <;> decide

/-- Claim C4, amended: `serialize` lists the script configs in collection
order, and loading its output into a fresh session appends scripts in exactly
that persisted order, reproducing the ordered script configs; addon states are
not part of `serialize`'s output and are left untouched by `load` (the fresh
session keeps its pre-registration addon states). -/
theorem load_serialize_roundtrip_scripts (sess fresh : SessionAddons)
    (h : fresh.base.scripts = []) :
    (sess.save.scripts = some (sess.base.scripts.map Script.serialize)) ∧
    ((fresh.loadOnly sess.save).2.base.scripts =
      (sess.base.scripts.map Script.serialize).map Script.fromConfig) ∧
    ((fresh.loadOnly sess.save).2.base.scripts.map Script.serialize =
      sess.base.scripts.map Script.serialize) ∧
    ((fresh.loadOnly sess.save).2.addons = fresh.addons) := by
  refine ⟨rfl, ?_, ?_, rfl⟩
  · simp [SessionAddons.loadOnly, SessionAddons.save, Session.load,
      Session.serialize, loadScripts_eq, h]
  · simp [SessionAddons.loadOnly, SessionAddons.save, Session.load,
      Session.serialize, loadScripts_eq, h, List.map_map]
    exact fun a _ => rfl

/-- Claim C4 (amended), witness at the logger sessions. -/
theorem load_serialize_roundtrip_scripts_witness :
    (freshLoggerSession.loadOnly loggerSession.save).2.addons =
      freshLoggerSession.addons :=
  (load_serialize_roundtrip_scripts loggerSession freshLoggerSession
    rfl).2.2.2

/-- Claim C5, counterexample: on a session with scripts titled `A` and `B`,
renaming the `B` script to `A` succeeds — the title is updated, the collection
now holds two scripts titled `A`, and `script_renamed` is emitted — instead of
failing with `InvalidTitleError`. -/
theorem rename_duplicate_title_not_rejected :
    sessAB.rename_script ⟨"B", 1⟩ "A" =
      ({ sessAB with scripts := [⟨"A", 0⟩, ⟨"A", 1⟩] }, ⟨"A", 1⟩,
       Event.scriptRenamed ⟨"A", 1⟩) ∧
    ((sessAB.rename_script ⟨"B", 1⟩ "A").1.scripts.map Script.title =
      ["A", "A"]) := by
  constructor <;> decide

/-- Claim C5, amended: `rename_script` performs no validity check at all: for
every session, script and new title — empty and duplicate titles included — it
updates the script's title in place and emits `script_renamed`; it can never
fail. -/
theorem rename_script_unconditional (sess : Session) (scr : Script)
    (t : String) :
    ((sess.rename_script scr t).2.2 =
      Event.scriptRenamed { scr with title := t }) ∧
    ((sess.rename_script scr t).1.scripts.map Script.title =
      sess.scripts.map fun s => if s = scr then t else s.title) := by
  refine ⟨rfl, ?_⟩
  simp [Session.rename_script, List.map_map]
  intro a _
  by_cases hs : a = scr <;> simp [hs]

/-- Claim C6, counterexample: the serialized form of a two-script session holds
the ordered script configs under `scripts` but has no `addons` key at all,
contradicting the claim that the output contains the addon snapshot. -/
theorem serialize_has_no_addons_key :
    sessAB.serialize =
      { scripts := some [⟨"A", 0⟩, ⟨"B", 1⟩], addons := none } ∧
    sessAB.serialize.addons = none :=
  ⟨rfl, rfl⟩

/-- Claim C6, amended: `serialize` produces a mapping whose only entry is the
ordered list of script configs under `scripts`, in collection order; no
`addons` key is written. -/
theorem serialize_scripts_only (sess : Session) :
    sess.serialize =
      { scripts := some (sess.scripts.map Script.serialize),
        addons := none } := rfl

/-- Claim C7: `delete_script` on a present script removes exactly its first
occurrence — the relative order of all other scripts is untouched — and emits
`script_deleted`; on an absent script it raises (`list.remove`'s `ValueError`,
the code's only not-found failure) and emits nothing. -/
theorem delete_script_spec (sess : Session) (scr : Script) :
    (scr ∈ sess.scripts →
      ∃ l1 l2, sess.scripts = l1 ++ scr :: l2 ∧ scr ∉ l1 ∧
        sess.delete_script scr =
          .ok ({ sess with scripts := l1 ++ l2 }, .scriptDeleted scr)) ∧
    (scr ∉ sess.scripts →
      sess.delete_script scr = .error .scriptNotFound) := by
  constructor
  · intro h
    obtain ⟨l1, l2, heq, hnot, hrem⟩ := listRemove_of_mem _ _ h
    exact ⟨l1, l2, heq, hnot, by simp [Session.delete_script, hrem]⟩
  · intro h
    simp [Session.delete_script, listRemove_of_not_mem _ _ h]

/-- Claim C7, witness: deleting script `A` from the `A`/`B` session. -/
theorem delete_script_spec_witness :
    (⟨"A", 0⟩ : Script) ∈ sessAB.scripts ∧
    (∃ l1 l2, sessAB.scripts = l1 ++ (⟨"A", 0⟩ : Script) :: l2 ∧
      (⟨"A", 0⟩ : Script) ∉ l1 ∧
      sessAB.delete_script ⟨"A", 0⟩ =
        .ok ({ sessAB with scripts := l1 ++ l2 },
             .scriptDeleted ⟨"A", 0⟩)) :=
  ⟨by decide, (delete_script_spec sessAB ⟨"A", 0⟩).1 (by decide)⟩

/-- Claim C8, counterexample: registering the node class `n` twice on an empty
session leaves the node-class registry with two entries, not one — `append` is
unconditional, so registration is not idempotent. -/
theorem register_node_twice_two_entries :
    ((emptySession.register_node "n").register_node "n").nodes = ["n", "n"] ∧
    ((emptySession.register_node "n").register_node "n").nodes.length ≠ 1 :=
  ⟨rfl, by decide⟩

/-- Claim C8, amended: `register_node` appends the node class unconditionally
and `register_nodes` appends each of its arguments in order, so registering an
identifier twice leaves two entries (a duplicate-tolerant list, not an
idempotent set). -/
theorem register_node_appends (sess : Session) (n : NodeClass)
    (l : List NodeClass) :
    ((sess.register_node n).nodes = sess.nodes ++ [n]) ∧
    ((sess.register_nodes l).nodes = sess.nodes ++ l) ∧
    (((sess.register_node n).register_node n).nodes.length =
      sess.nodes.length + 2) :=
  ⟨rfl, register_nodes_nodes l sess, by simp [Session.register_node]⟩

/-- Claim C9: constructing a session with `threaded=True` and
`gui_parent=None` raises (`None.thread()` is an `AttributeError`) before a
session value exists; with `threaded=False` construction succeeds for every
`gui_parent` — `None` included, so it is never dereferenced — and the
threading bridge is `None`; with `threaded=True` and a real `gui_parent` the
bridge exists and lives on the `gui_parent`'s thread. -/
theorem sessionInit_threaded_requires_gui :
    (sessionInit true none = .error .attributeErrorNoneType) ∧
    (∀ gp : Option GuiParent,
      sessionInit false gp =
        .ok { scripts := [], nodes := [], threaded := false,
              threadingBridge := none, guiParent := gp }) ∧
    (∀ g : GuiParent,
      sessionInit true (some g) =
        .ok { scripts := [], nodes := [], threaded := true,
              threadingBridge := some { onThread := g.threadId },
              guiParent := some g }) :=
  ⟨rfl, fun _ => rfl, fun _ => rfl⟩

/-- Claim C10: the base `AddOn`'s `get_state` always returns the empty mapping
and its `set_state` accepts any mapping — whatever keys it has or lacks — and
changes nothing, so `set_state (get_state ())` is a no-op; both are total
functions, so neither can raise. -/
theorem addon_base_state_roundtrip_noop (a : AddOn) (s : AddonState) :
    a.get_state = [] ∧ a.set_state s = a ∧ a.set_state a.get_state = a :=
  ⟨rfl, rfl, rfl⟩
